import Mathlib

/-!
Verification of the Interaction Discovery Engine of the BDD test-generator
repository.  The definitions below are a shallow embedding of
`src/browser/element_detector.py`, `src/browser/automation.py`,
`src/analyzer/interaction_mapper.py` and the probe loops of `main.py`.

Modelling conventions:
* Browser/page responses (the values returned by `execute_script`,
  `get_current_url`, `get_visible_elements`, and the success/failure of
  `hover`, `click`, `scroll_into_view_if_needed`) are inputs to the probe
  functions, carried in explicit environment records.  A response of
  `Except.error _` models the corresponding awaited call raising an
  exception.
* Pixel coordinates (JavaScript numbers) are modelled as `Int`; the code
  only ever compares them against integer thresholds, so this is exact
  except for fractional pixels, on which no claim depends.  CSS opacity in
  the advanced hover probe is compared against 0.95 and is modelled as `ℚ`.
* Python `str.strip()` / JavaScript `trim()` are both modelled as
  `strTrim`, `substring(0, n)` as `strTake`, and `toLowerCase()` as
  `strToLower`, all defined over the character list so that the kernel can
  evaluate them on concrete inputs.
* Python sets used only for membership tests are modelled as lists with
  `List.contains`.
-/

/-- Whether an `Except` result is an error, i.e. whether the modelled awaited
call raised. -/
def isErr {ε α : Type} : Except ε α → Bool
  | .error _ => true
  | .ok _ => false

/-- Model of JavaScript `substring(0, n)` (and Python slicing) over codepoints,
defined directly on the character list so that length bounds are provable
and concrete inputs evaluate. -/
def strTake (s : String) (n : Nat) : String := String.mk (s.data.take n)

/-- Model of Python `str.strip()` / JavaScript `trim()`: drop leading and
trailing whitespace, defined on the character list so that concrete inputs
evaluate (`String.trim` itself recurses on byte positions, which the kernel
cannot unfold). -/
def strTrim (s : String) : String :=
  String.mk (((s.data.dropWhile Char.isWhitespace).reverse.dropWhile
    Char.isWhitespace).reverse)

/-- Model of JavaScript `toLowerCase()`, defined on the character list for the
same reason. -/
def strToLower (s : String) : String := String.mk (s.data.map Char.toLower)

/-- Bounding box of a DOM element (`getBoundingClientRect`), integer pixels. -/
structure Rect where
  x : Int
  y : Int
  width : Int
  height : Int
deriving Repr, DecidableEq

/-- The `location` dict of an `ElementInfo`.  In the source it is a Python
`Dict[str, float]`; the scanners always fill all four keys, while
`detect_initial_popup` builds a trigger with an empty dict, so every field
is optional.  Reads go through `.get(key, 0.0)`, modelled by `Option.getD`. -/
structure Location where
  x : Option Int := none
  y : Option Int := none
  width : Option Int := none
  height : Option Int := none
deriving Repr, DecidableEq

/-- The `ElementInfo` dataclass of `element_detector.py`. -/
structure ElementInfo where
  tag : String
  text : String
  role : String
  xpath : String
  attributes : List (String × String)
  location : Location
deriving Repr, DecidableEq

/-- A `(text, href)` link extracted from a revealed menu. -/
structure Link where
  text : String
  href : String
deriving Repr, DecidableEq

/-- One entry of `visual_changes.clickable_links`: a dict with keys `text` and
`target_url`. -/
structure ClickableLink where
  text : String
  target_url : String
deriving Repr, DecidableEq

/-- One link group of a menu (the spec's `sections` entries; the extraction
script always returns an empty `sections` list). -/
structure Section where
  label : String
  links : List String
deriving Repr, DecidableEq

/-- The `MenuStructure` dataclass of `element_detector.py`. -/
structure MenuStructure where
  sections : List Section
  all_links : List String
  menu_type : String
  layout : String
deriving Repr, DecidableEq

/-- The raw dict returned by the `_extract_revealed_menu_structure` script. -/
structure RawMenuStructure where
  menu_type : String
  sections : List Section
  all_links : List String
  links : List Link
deriving Repr, DecidableEq

/-- One button entry of the `_detect_popup` script result. -/
structure PopupButton where
  text : String
  className : String
  href : String
deriving Repr, DecidableEq

/-- The dict returned by the `_detect_popup` script for a visible modal. -/
structure PopupInfo where
  title : String
  content : String
  buttons : List PopupButton
  selector : String
deriving Repr, DecidableEq

/-- The `visual_changes` dict of an `Interaction` (it only ever carries the
`clickable_links` key). -/
structure VisualChanges where
  clickable_links : List ClickableLink
deriving Repr, DecidableEq

/-- The `Interaction` dataclass of `element_detector.py`. -/
structure Interaction where
  trigger_element : ElementInfo
  action_type : String
  interaction_method : String
  revealed_elements : List ElementInfo
  menu_structure : Option MenuStructure
  url_before : String
  url_after : Option String
  popup_appeared : Bool
  popup_info : Option PopupInfo := none
  visual_changes : Option VisualChanges := none
deriving Repr, DecidableEq

/-- The synthetic `body` trigger built by `detect_initial_popup` (note the empty
`location` dict). -/
def loadTriggerElement : ElementInfo :=
  { tag := "body"
  , text := "page load popup"
  , role := "load"
  , xpath := "//body"
  , attributes := []
  , location := {} }

/-- The `Interaction` record built by `detect_initial_popup` for an accepted
load-time popup. -/
def loadInteraction (p : PopupInfo) (url : String) : Interaction :=
  { trigger_element := loadTriggerElement
  , action_type := "load"
  , interaction_method := "auto-popup"
  , revealed_elements := []
  , menu_structure := none
  , url_before := url
  , url_after := none
  , popup_appeared := true
  , popup_info := some p
  , visual_changes := none }

/-- Model of `ElementDetector.detect_initial_popup`: the load-time probe, as a
function of the `_detect_popup` script result and the page URL.  A candidate
popup with ten or more buttons is treated as layout/nav and discarded. -/
def detect_initial_popup (popup_info : Option PopupInfo) (url : String) :
    Option Interaction :=
  match popup_info with
  | none => none
  | some p =>
    if 10 ≤ p.buttons.length then none
    else some (loadInteraction p url)

/-- Environment of one `simulate_popup_interaction` probe: the browser's
responses to the successive awaited calls, in program order. -/
structure PopupEnv where
  urlBefore : Except String String
  scrollRes : Except String Unit
  clickRes : Except String Unit
  popupScript : Except String (Option PopupInfo)
  urlAfter : Except String String
deriving Repr

/-- Model of `ElementDetector._detect_popup`: the script may fail, in which case
the method catches the exception and returns `None`. -/
def detect_popup (r : Except String (Option PopupInfo)) : Option PopupInfo :=
  match r with
  | .error _ => none
  | .ok p => p

/-- The `Interaction` record built by `simulate_popup_interaction` for a
qualifying overlay (note that the record's `url_after` field is set to
`None`). -/
def clickPopupInteraction (element : ElementInfo) (url_before : String)
    (p : PopupInfo) : Interaction :=
  { trigger_element := element
  , action_type := "click"
  , interaction_method := "click-popup"
  , revealed_elements := []
  , menu_structure := none
  , url_before := url_before
  , url_after := none
  , popup_appeared := true
  , popup_info := some p
  , visual_changes := none }

/-- Model of `ElementDetector.simulate_popup_interaction`: click a candidate
popup trigger and classify the outcome.  A popup interaction is emitted
exactly when an overlay is detected and the URL did not change; a click
failure is caught and yields `none`; any other exception is caught by the
outer `try` and also yields `none`. -/
def simulate_popup_interaction (element : ElementInfo) (env : PopupEnv) :
    Option Interaction :=
  match env.urlBefore with
  | .error _ => none
  | .ok url_before =>
  match env.scrollRes with
  | .error _ => none
  | .ok _ =>
  match env.clickRes with
  | .error _ => none
  | .ok _ =>
  match env.urlAfter with
  | .error _ => none
  | .ok url_after =>
  match detect_popup env.popupScript with
  | some p =>
    if url_after = url_before then some (clickPopupInteraction element url_before p)
    else none
  | none => none

/-- The `count`-and-`signature` dict produced by the `_get_menu_state` script. -/
structure MenuState where
  count : Nat
  signature : String
deriving Repr, DecidableEq

/-- Host side of `ElementDetector._get_menu_state`: a script failure is caught
and a `null` result is replaced by the default state, both yielding a count
of 0 and an empty signature. -/
def get_menu_state (r : Except String (Option MenuState)) : MenuState :=
  match r with
  | .error _ => { count := 0, signature := "" }
  | .ok none => { count := 0, signature := "" }
  | .ok (some s) => s

/-- A menu-like DOM container as observed by the two in-page menu scripts. The
`matches…` flags record which of the hard-coded CSS selectors the container
matches (selector matching itself is the browser's job); `anchors` are its
`a` descendants with raw text and resolved href. -/
structure MenuContainer where
  id : String
  className : String
  innerText : String
  display : String
  visibility : String
  opacity : String
  width : Int
  height : Int
  matchesRoleMenu : Bool
  matchesDropdownMenuClass : Bool
  matchesSubmenuClass : Bool
  matchesUlSub : Bool
  matchesDropdownStyleBlock : Bool
  anchors : List Link
deriving Repr, DecidableEq

/-- The five selectors of the `_get_menu_state` script, in script order. -/
def menuStateSelectors : List (MenuContainer → Bool) :=
  [ fun m => m.matchesRoleMenu
  , fun m => m.matchesDropdownMenuClass
  , fun m => m.matchesSubmenuClass
  , fun m => m.matchesUlSub
  , fun m => m.matchesDropdownStyleBlock ]

/-- Visibility filter of the `_get_menu_state` script (note the string
comparison of the computed `opacity` against the literal `"0"`). -/
def menuVisibleForState (m : MenuContainer) : Bool :=
  m.display ≠ "none" && m.visibility ≠ "hidden" && m.opacity ≠ "0" &&
    20 < m.width && 20 < m.height

/-- The `visibleMenus` array of the `_get_menu_state` script: for each selector
in order, every matching visible container (a container matching several
selectors is pushed once per selector). -/
def visibleMenusForState (page : List MenuContainer) : List MenuContainer :=
  menuStateSelectors.flatMap fun sel =>
    page.filter fun m => sel m && menuVisibleForState m

/-- The `_get_menu_state` script over a page: count plus the order-stable
`id`/`className`/`text` signature joined with double bars. -/
def getMenuStateScript (page : List MenuContainer) : MenuState :=
  { count := (visibleMenusForState page).length
  , signature :=
      String.intercalate "||"
        ((visibleMenusForState page).map fun m =>
          m.id ++ "|" ++ m.className ++ "|" ++ (strTake (strTrim m.innerText) 300)) }

/-- The four selectors of the `_extract_revealed_menu_structure` script (the
style-based fifth selector of `_get_menu_state` is absent here). -/
def extractMenuSelectors : List (MenuContainer → Bool) :=
  [ fun m => m.matchesRoleMenu
  , fun m => m.matchesDropdownMenuClass
  , fun m => m.matchesSubmenuClass
  , fun m => m.matchesUlSub ]

/-- Visibility filter of the `_extract_revealed_menu_structure` script (no
opacity check, unlike `_get_menu_state`). -/
def menuVisibleForExtract (m : MenuContainer) : Bool :=
  m.display ≠ "none" && m.visibility ≠ "hidden" && 20 < m.width && 20 < m.height

/-- The links collected from one menu container by the extraction script:
anchors whose trimmed text and href are both non-empty. -/
def menuLinks (m : MenuContainer) : List Link :=
  (m.anchors.filter fun l => (strTrim l.text) ≠ "" && l.href ≠ "").map
    fun l => { text := (strTrim l.text), href := l.href }

/-- The `_extract_revealed_menu_structure` script over a page: the first visible
menu container (selector-major order) with at least one link wins; `none` if
no container qualifies. -/
def extract_revealed_menu_structure (page : List MenuContainer) :
    Option RawMenuStructure :=
  (extractMenuSelectors.flatMap fun sel => page.filter sel).findSome? fun m =>
    if menuVisibleForExtract m then
      let ls := menuLinks m
      if ls.isEmpty then none
      else some { menu_type := "dropdown", sections := [], all_links := ls.map Link.text, links := ls }
    else none

/-- Loop body of `ElementDetector._extract_clickable_links`: keep entries with
non-empty stripped text and non-empty href, deduplicated by href. -/
def extractClickableAux : List Link → List String → List ClickableLink
  | [], _ => []
  | l :: rest, seen =>
    let text := (strTrim l.text)
    if text ≠ "" && l.href ≠ "" && !seen.contains l.href then
      { text := text, target_url := l.href } :: extractClickableAux rest (l.href :: seen)
    else extractClickableAux rest seen

/-- Model of `ElementDetector._extract_clickable_links`: processes the first ten
extracted links. -/
def extract_clickable_links (links : List Link) : List ClickableLink :=
  extractClickableAux (links.take 10) []

/-- One entry of the `BrowserAutomation.get_visible_elements` snapshot.  The
snapshot script gives a non-empty `href` only to anchor elements. -/
structure VisibleElement where
  tag : String
  text : String
  id : String
  className : String
  href : String
  role : String
  x : Int
  y : Int
  width : Int
  height : Int
deriving Repr, DecidableEq

/-- The `before_keys` set of `_extract_new_nav_links`: stripped `(href, text)`
pairs of before-snapshot entries with both parts non-empty. -/
def beforeKeys (before : List VisibleElement) : List (String × String) :=
  before.filterMap fun el =>
    let href := (strTrim el.href)
    let text := (strTrim el.text)
    if href ≠ "" && text ≠ "" then some (href, text) else none

/-- Loop body of `ElementDetector._extract_new_nav_links` over the after
snapshot, with the `seen_hrefs` accumulator. -/
def extractNewNavAux (bkeys : List (String × String)) (triggerY : Int) :
    List VisibleElement → List String → List ClickableLink
  | [], _ => []
  | el :: rest, seen =>
    let href := (strTrim el.href)
    let text := (strTrim el.text)
    if href = "" || text = "" then extractNewNavAux bkeys triggerY rest seen
    else if bkeys.contains (href, text) then extractNewNavAux bkeys triggerY rest seen
    else if el.y < 0 then extractNewNavAux bkeys triggerY rest seen
    else if triggerY + 500 < el.y then extractNewNavAux bkeys triggerY rest seen
    else if seen.contains href then extractNewNavAux bkeys triggerY rest seen
    else { text := text, target_url := href } :: extractNewNavAux bkeys triggerY rest (href :: seen)

/-- Model of `ElementDetector._extract_new_nav_links`: newly visible links near
the trigger (at most `max_delta_y = 500` pixels below the trigger's y, not
above the viewport top), deduplicated by href in first-seen order. -/
def extract_new_nav_links (before after : List VisibleElement)
    (trigger_element : ElementInfo) : List ClickableLink :=
  extractNewNavAux (beforeKeys before) (trigger_element.location.y.getD 0) after []

/-- Environment of one `simulate_hover_interaction` probe: the browser's
responses to the successive awaited calls, in program order. -/
structure HoverEnv where
  urlBefore : Except String String
  visibleBefore : Except String (List VisibleElement)
  menuStateBefore : Except String (Option MenuState)
  scrollRes : Except String Unit
  hoverRes : Except String Unit
  menuStateAfter : Except String (Option MenuState)
  menuStructScript : Except String (Option RawMenuStructure)
  visibleAfter : Except String (List VisibleElement)
deriving Repr

/-- Primary detection rule of `simulate_hover_interaction`: a dropdown is
confirmed when the visible-menu count increased, or when at least one menu
is visible and the content signature changed. -/
def dropdownDetected (before after : MenuState) : Bool :=
  if before.count < after.count then true
  else if 1 ≤ after.count && after.signature ≠ before.signature then true
  else false

/-- The `Interaction` record built by the primary (menu-state) tier of
`simulate_hover_interaction`, from the `_extract_revealed_menu_structure`
script result. -/
def primaryInteraction (element : ElementInfo) (url_before : String)
    (menu_structure : Option RawMenuStructure) : Interaction :=
  let clickable_links :=
    match menu_structure with
    | some ms => if ms.links ≠ [] then extract_clickable_links ms.links else []
    | none => []
  { trigger_element := element
  , action_type := "hover"
  , interaction_method := "hover-menu"
  , revealed_elements := []
  , menu_structure :=
      match menu_structure with
      | some ms =>
        some { sections := ms.sections, all_links := ms.all_links
             , menu_type := ms.menu_type, layout := "single-column" }
      | none => none
  , url_before := url_before
  , url_after := none
  , popup_appeared := false
  , popup_info := none
  , visual_changes :=
      if clickable_links ≠ [] then some { clickable_links := clickable_links } else none }

/-- The `Interaction` record built by the diff-based fallback tier of
`simulate_hover_interaction`. -/
def fallbackInteraction (element : ElementInfo) (url_before : String)
    (links : List ClickableLink) : Interaction :=
  { trigger_element := element
  , action_type := "hover"
  , interaction_method := "hover-nav-diff"
  , revealed_elements := []
  , menu_structure := none
  , url_before := url_before
  , url_after := none
  , popup_appeared := false
  , popup_info := none
  , visual_changes := some { clickable_links := links } }

/-- Model of `ElementDetector.simulate_hover_interaction`: the two-tier hover
probe. A hover failure is caught by the inner `try` and any other exception
by the outer `try`; both yield `none`.  The `_get_menu_state` calls never
raise. -/
def simulate_hover_interaction (element : ElementInfo) (env : HoverEnv) :
    Option Interaction :=
  match env.urlBefore with
  | .error _ => none
  | .ok url_before =>
  match env.visibleBefore with
  | .error _ => none
  | .ok visible_before =>
  let menu_state_before := get_menu_state env.menuStateBefore
  match env.scrollRes with
  | .error _ => none
  | .ok _ =>
  match env.hoverRes with
  | .error _ => none
  | .ok _ =>
  let menu_state_after := get_menu_state env.menuStateAfter
  if dropdownDetected menu_state_before menu_state_after then
    match env.menuStructScript with
    | .error _ => none
    | .ok menu_structure => some (primaryInteraction element url_before menu_structure)
  else
    match env.visibleAfter with
    | .error _ => none
    | .ok visible_after =>
      let fallback_links := extract_new_nav_links visible_before visible_after element
      if fallback_links ≠ [] then
        some (fallbackInteraction element url_before fallback_links)
      else none

/-- The `MAX_HOVER_ELEMENTS` setting of `config.py`. -/
def MAX_HOVER_ELEMENTS : Nat := 25

/-- The `MAX_POPUP_TRIGGERS` setting of `config.py`. -/
def MAX_POPUP_TRIGGERS : Nat := 10

/-- A raw DOM element as read by the scanner scripts: tag, raw text content, the
attributes the scripts query, bounding rect, computed style, and the value
the in-page `getXPath` helper would produce.  `hostname` and `urlValid` are
only meaningful for anchors (the external-link strategy parses `el.href`
into a URL). -/
structure RawDomElement where
  tagName : String
  textContent : String
  id : String
  className : String
  roleAttr : String
  ariaLabel : String
  ariaHaspopup : String
  ariaExpanded : String
  href : String
  hostname : String
  urlValid : Bool
  rect : Rect
  display : String
  visibility : String
  xpath : String
deriving Repr, DecidableEq

/-- The `location` dict a scanner script fills from a bounding rect. -/
def mkLocation (r : Rect) : Location :=
  { x := some r.x, y := some r.y, width := some r.width, height := some r.height }

/-- Loop body of the `_find_aria_menu_triggers` script: visible elements with
non-empty text shorter than 50 characters, deduplicated by text. -/
def ariaScanAux : List RawDomElement → List String → List ElementInfo
  | [], _ => []
  | el :: rest, seen =>
    let text := (strTrim el.textContent)
    if 0 < el.rect.width && 0 < el.rect.height &&
        0 < text.length && text.length < 50 && !seen.contains text then
      { tag := (strToLower el.tagName)
      , text := text
      , role := if el.roleAttr = "" then "button" else el.roleAttr
      , xpath := el.xpath
      , attributes :=
          [("id", el.id), ("class", el.className), ("aria-label", el.ariaLabel),
           ("aria-haspopup", el.ariaHaspopup), ("aria-expanded", el.ariaExpanded)]
      , location := mkLocation el.rect } :: ariaScanAux rest (text :: seen)
    else ariaScanAux rest seen

/-- Model of `ElementDetector._find_aria_menu_triggers`, as a function of the
list of elements matching the aria-haspopup / aria-expanded selector; a
script failure is caught and yields the empty list. -/
def find_aria_menu_triggers (r : Except String (List RawDomElement)) : List ElementInfo :=
  match r with
  | .error _ => []
  | .ok els => ariaScanAux els []

/-- Loop body of the `_find_nav_menu_triggers` script over the triggers of
top-level nav items that contain a nested submenu. -/
def navStrictScanAux : List RawDomElement → List String → List ElementInfo
  | [], _ => []
  | el :: rest, seen =>
    let text := (strTrim el.textContent)
    if 0 < el.rect.width && 0 < el.rect.height &&
        0 < text.length && text.length < 50 && !seen.contains text then
      { tag := (strToLower el.tagName)
      , text := text
      , role := "menuitem"
      , xpath := el.xpath
      , attributes :=
          [("id", el.id), ("class", el.className), ("aria-label", el.ariaLabel),
           ("href", el.href)]
      , location := mkLocation el.rect } :: navStrictScanAux rest (text :: seen)
    else navStrictScanAux rest seen

/-- Model of `ElementDetector._find_nav_menu_triggers`, as a function of the
trigger elements of nav items with a nested list / menu-role / dropdown
structure. -/
def find_nav_menu_triggers (r : Except String (List RawDomElement)) : List ElementInfo :=
  match r with
  | .error _ => []
  | .ok els => navStrictScanAux els []

/-- Loop body of the `_find_nav_menu_triggers_loose` script: visible labeled
interactive nav items within the top 200 pixels, deduplicated by lowercased
text. -/
def navLooseScanAux : List RawDomElement → List String → List ElementInfo
  | [], _ => []
  | el :: rest, seen =>
    let text := (strTrim el.textContent)
    if el.rect.width ≤ 0 || el.rect.height ≤ 0 then navLooseScanAux rest seen
    else if el.display = "none" || el.visibility = "hidden" then navLooseScanAux rest seen
    else if 200 < el.rect.y then navLooseScanAux rest seen
    else if text = "" || 50 < text.length then navLooseScanAux rest seen
    else if seen.contains (strToLower text) then navLooseScanAux rest seen
    else
      { tag := (strToLower el.tagName)
      , text := text
      , role := if el.roleAttr = "" then "menuitem" else el.roleAttr
      , xpath := el.xpath
      , attributes :=
          [("id", el.id), ("class", el.className), ("aria-label", el.ariaLabel),
           ("href", el.href)]
      , location := mkLocation el.rect } :: navLooseScanAux rest ((strToLower text) :: seen)

/-- Model of `ElementDetector._find_nav_menu_triggers_loose`, as a function of
the interactive elements inside nav containers. -/
def find_nav_menu_triggers_loose (r : Except String (List RawDomElement)) : List ElementInfo :=
  match r with
  | .error _ => []
  | .ok els => navLooseScanAux els []

/-- Loop body of the `_find_css_dropdown_triggers` script over the trigger parts
of elements with dropdown-style class names. -/
def cssScanAux : List RawDomElement → List String → List ElementInfo
  | [], _ => []
  | el :: rest, seen =>
    let text := (strTrim el.textContent)
    if 0 < el.rect.width && 0 < el.rect.height &&
        0 < text.length && text.length < 50 && !seen.contains text then
      { tag := (strToLower el.tagName)
      , text := text
      , role := "menuitem"
      , xpath := el.xpath
      , attributes :=
          [("id", el.id), ("class", el.className), ("aria-label", el.ariaLabel)]
      , location := mkLocation el.rect } :: cssScanAux rest (text :: seen)
    else cssScanAux rest seen

/-- Model of `ElementDetector._find_css_dropdown_triggers`. -/
def find_css_dropdown_triggers (r : Except String (List RawDomElement)) : List ElementInfo :=
  match r with
  | .error _ => []
  | .ok els => cssScanAux els []

/-- Loop body of `ElementDetector._deduplicate_elements`: keep elements with
non-empty text whose text was not seen before (first-seen wins). -/
def deduplicateAux (seen : List String) : List ElementInfo → List ElementInfo
  | [] => []
  | el :: rest =>
    if el.text ≠ "" && !seen.contains el.text then
      el :: deduplicateAux (el.text :: seen) rest
    else deduplicateAux seen rest

/-- Model of `ElementDetector._deduplicate_elements`. -/
def deduplicate_elements (elements : List ElementInfo) : List ElementInfo :=
  deduplicateAux [] elements

/-- The script results feeding the four hover-candidate strategies. -/
structure HoverScanInputs where
  aria : Except String (List RawDomElement)
  navStrict : Except String (List RawDomElement)
  navLoose : Except String (List RawDomElement)
  css : Except String (List RawDomElement)
deriving Repr

/-- The concatenated (pre-dedup) hover candidate list of
`find_hoverable_elements`, in strategy order. -/
def hoverCandidatesRaw (inp : HoverScanInputs) : List ElementInfo :=
  find_aria_menu_triggers inp.aria ++ find_nav_menu_triggers inp.navStrict ++
    find_nav_menu_triggers_loose inp.navLoose ++ find_css_dropdown_triggers inp.css

/-- Model of `ElementDetector.find_hoverable_elements`: union of the four
strategies, deduplicated by label text, truncated to `MAX_HOVER_ELEMENTS`. -/
def find_hoverable_elements (inp : HoverScanInputs) : List ElementInfo :=
  (deduplicate_elements (hoverCandidatesRaw inp)).take MAX_HOVER_ELEMENTS

/-- Loop body of the classic modal-attribute strategy of `detect_popup_triggers`
(no dedup at this stage; text capped at 100 characters). -/
def popupClassicScan : List RawDomElement → List ElementInfo
  | [] => []
  | el :: rest =>
    let text := (strTrim el.textContent)
    if 0 < el.rect.width && 0 < el.rect.height && text ≠ "" then
      { tag := (strToLower el.tagName)
      , text := strTake text 100
      , role := "button"
      , xpath := el.xpath
      , attributes := [("id", el.id), ("class", el.className)]
      , location := mkLocation el.rect } :: popupClassicScan rest
    else popupClassicScan rest

/-- The leading-`www.`-stripping of the external-link script. -/
def stripWww (s : String) : String :=
  if s.startsWith "www." then s.drop 4 else s

/-- Loop body of the `_find_external_link_triggers` script: visible external
anchors above 95% of the viewport height, deduplicated by lowercased text
plus href. -/
def externalScanAux (currentHost : String) (innerHeight : Int) :
    List RawDomElement → List String → List ElementInfo
  | [], _ => []
  | el :: rest, seen =>
    let text := (strTrim el.textContent)
    if el.rect.width ≤ 0 || el.rect.height ≤ 0 then
      externalScanAux currentHost innerHeight rest seen
    else if el.display = "none" || el.visibility = "hidden" then
      externalScanAux currentHost innerHeight rest seen
    else if text = "" then externalScanAux currentHost innerHeight rest seen
    else if !el.urlValid then externalScanAux currentHost innerHeight rest seen
    else if stripWww el.hostname = currentHost then
      externalScanAux currentHost innerHeight rest seen
    else if innerHeight * 95 < el.rect.y * 100 then
      externalScanAux currentHost innerHeight rest seen
    else if seen.contains ((strToLower text) ++ "|" ++ el.href) then
      externalScanAux currentHost innerHeight rest seen
    else
      { tag := "a"
      , text := strTake text 100
      , role := "link"
      , xpath := el.xpath
      , attributes := [("id", el.id), ("class", el.className), ("href", el.href)]
      , location := mkLocation el.rect } ::
        externalScanAux currentHost innerHeight rest (((strToLower text) ++ "|" ++ el.href) :: seen)

/-- Model of `ElementDetector._find_external_link_triggers`, as a function of
the page hostname, the viewport height and the href-bearing anchors of the
page. -/
def find_external_link_triggers (pageHostname : String) (innerHeight : Int)
    (els : List RawDomElement) : List ElementInfo :=
  externalScanAux (stripWww pageHostname) innerHeight els []

/-- The `(text, xpath)` dedup loop of `detect_popup_triggers`. -/
def popupDedupAux : List ElementInfo → List (String × String) → List ElementInfo
  | [], _ => []
  | el :: rest, seen =>
    if seen.contains (el.text, el.xpath) then popupDedupAux rest seen
    else el :: popupDedupAux rest ((el.text, el.xpath) :: seen)

/-- Model of `ElementDetector.detect_popup_triggers`: classic strategy plus
external link strategy (each one's script failure caught, contributing
nothing), deduplicated by `(text, xpath)` and truncated to
`MAX_POPUP_TRIGGERS`. -/
def detect_popup_triggers (classic : Except String (List RawDomElement))
    (pageHostname : String) (innerHeight : Int)
    (external : Except String (List RawDomElement)) : List ElementInfo :=
  let candidates :=
    (match classic with
     | .error _ => []
     | .ok els => popupClassicScan els) ++
    (match external with
     | .error _ => []
     | .ok els => find_external_link_triggers pageHostname innerHeight els)
  (popupDedupAux candidates []).take MAX_POPUP_TRIGGERS

/-- One pass of the `generate_tests` hover loop body over a candidate/response
list, without the cap: probes whose result is `None` contribute nothing. -/
def probeHoverBatch (cands : List (ElementInfo × HoverEnv)) : List Interaction :=
  cands.filterMap fun c => simulate_hover_interaction c.1 c.2

/-- The `generate_tests` hover loop of `main.py`, probing the first five hover
candidates. -/
def hover_loop (cands : List (ElementInfo × HoverEnv)) : List Interaction :=
  probeHoverBatch (cands.take 5)

/-- One pass of the `generate_tests` popup loop body, without the cap. -/
def probePopupBatch (cands : List (ElementInfo × PopupEnv)) : List Interaction :=
  cands.filterMap fun c => simulate_popup_interaction c.1 c.2

/-- The `generate_tests` popup loop of `main.py`, probing the first three popup
candidates. -/
def popup_loop (cands : List (ElementInfo × PopupEnv)) : List Interaction :=
  probePopupBatch (cands.take 3)

/-- One anchor snapshot of the `find_advanced_hover_interactions` in-page script
(opacity is a parsed float, modelled as a rational). -/
structure AdvLinkSnapshot where
  href : String
  text : String
  x : Int
  y : Int
  opacity : ℚ
  display : String
  visibility : String
  ariaHidden : String
deriving Repr, DecidableEq

/-- The before/after pair returned by the advanced-hover script. -/
structure AdvHoverResult where
  before : List AdvLinkSnapshot
  after : List AdvLinkSnapshot
deriving Repr, DecidableEq

/-- Environment of one advanced-hover candidate: current URL plus the
MutationObserver script result. -/
structure AdvHoverEnv where
  urlBefore : Except String String
  script : Except String (Option AdvHoverResult)
deriving Repr

/-- The `before_keys` set of `find_advanced_hover_interactions`: stripped pairs
of snapshot entries whose raw href and text are truthy. -/
def advBeforeKeys (before : List AdvLinkSnapshot) : List (String × String) :=
  before.filterMap fun b =>
    if b.href ≠ "" && b.text ≠ "" then some ((strTrim b.href), (strTrim b.text)) else none

/-- The new-links loop of `find_advanced_hover_interactions`: a link that
already existed is kept only if it is now fully opaque and not aria-hidden
(the code's `or 1` default turns an opacity of 0 into 1). -/
def advNewLinksAux (bkeys : List (String × String)) :
    List AdvLinkSnapshot → List String → List ClickableLink
  | [], _ => []
  | a :: rest, seen =>
    let href := (strTrim a.href)
    let text := (strTrim a.text)
    if href = "" || text = "" then advNewLinksAux bkeys rest seen
    else if bkeys.contains (href, text) &&
        ((if a.opacity = 0 then (1 : ℚ) else a.opacity) < 95 / 100 || (strTrim a.ariaHidden) ≠ "") then
      advNewLinksAux bkeys rest seen
    else if seen.contains href then advNewLinksAux bkeys rest seen
    else { text := text, target_url := href } :: advNewLinksAux bkeys rest (href :: seen)

/-- The `Interaction` record built by `find_advanced_hover_interactions` for one
candidate with newly revealed links. -/
def advancedHoverInteraction (element : ElementInfo) (url_before : String)
    (links : List ClickableLink) : Interaction :=
  { trigger_element := element
  , action_type := "hover"
  , interaction_method := "hover-advanced"
  , revealed_elements := []
  , menu_structure := none
  , url_before := url_before
  , url_after := none
  , popup_appeared := false
  , popup_info := none
  , visual_changes := some { clickable_links := links } }

/-- Per-candidate body of `find_advanced_hover_interactions`; any exception in
the body is caught by the per-candidate `try` and the loop continues. -/
def advanced_hover_candidate (element : ElementInfo) (env : AdvHoverEnv) :
    Option Interaction :=
  match env.urlBefore with
  | .error _ => none
  | .ok url_before =>
  match env.script with
  | .error _ => none
  | .ok none => none
  | .ok (some result) =>
    if result.after.isEmpty then none
    else
      let new_links := advNewLinksAux (advBeforeKeys result.before) result.after []
      if new_links.isEmpty then none
      else some (advancedHoverInteraction element url_before new_links)

/-- Model of `ElementDetector.find_advanced_hover_interactions`, gated on the
advanced-hover feature flag, over the loose nav trigger candidates paired
with their per-candidate browser responses. -/
def find_advanced_hover_interactions (enabled : Bool)
    (cands : List (ElementInfo × AdvHoverEnv)) : List Interaction :=
  if enabled then cands.filterMap fun c => advanced_hover_candidate c.1 c.2 else []

/-- Model of `ElementDetector.find_advanced_popup_interactions`, gated on the
advanced-popup feature flag: clicks up to `MAX_POPUP_TRIGGERS` CTA
candidates and keeps interactions with `popup_appeared`. -/
def find_advanced_popup_interactions (enabled : Bool)
    (cands : List (ElementInfo × PopupEnv)) : List Interaction :=
  if enabled then
    (cands.take MAX_POPUP_TRIGGERS).filterMap fun c =>
      match simulate_popup_interaction c.1 c.2 with
      | some i => if i.popup_appeared then some i else none
      | none => none
  else []

/-- The URL-related part of one entry of `InteractionMapper.to_dict_list`. -/
structure InteractionDict where
  action_type : String
  url_changed : Bool
  url_before : String
  url_after : Option String
  popup_appeared : Bool
deriving Repr, DecidableEq

/-- One entry of `InteractionMapper.to_dict_list`; its `url_changed` field is
set exactly when `url_after` is not `None`. -/
def interactionToDict (i : Interaction) : InteractionDict :=
  { action_type := i.action_type
  , url_changed := i.url_after.isSome
  , url_before := i.url_before
  , url_after := i.url_after
  , popup_appeared := i.popup_appeared }

/-- Model of `InteractionMapper.to_dict_list` over a collection of interactions. -/
def to_dict_list (interactions : List Interaction) : List InteractionDict :=
  interactions.map interactionToDict

/-- Python truthiness of `i.url_after` as used in `get_summary`: `None` and the
empty string are falsy. -/
def urlAfterTruthy (i : Interaction) : Bool :=
  match i.url_after with
  | none => false
  | some s => s ≠ ""

/-- The `url_changes` entry of `InteractionMapper.get_summary`. -/
def summary_url_changes (interactions : List Interaction) : Nat :=
  (interactions.filter urlAfterTruthy).length

/-- A hover probe environment in which some awaited step the probe reaches fails
(stale locator, hover timeout, or script failure on whichever branch is
taken).  `_get_menu_state` failures are excluded: they are caught inside
that helper and do not abort the probe. -/
def hoverEnvFaulty (env : HoverEnv) : Bool :=
  isErr env.urlBefore || isErr env.visibleBefore || isErr env.scrollRes ||
    isErr env.hoverRes || (isErr env.menuStructScript && isErr env.visibleAfter)

/-- A popup probe environment in which some awaited step fails.  A failing
`_detect_popup` script is included: it is caught inside the helper, leaving
no detected popup, so the probe still yields `none`. -/
def popupEnvFaulty (env : PopupEnv) : Bool :=
  isErr env.urlBefore || isErr env.scrollRes || isErr env.clickRes ||
    isErr env.popupScript || isErr env.urlAfter

/-- Interactions the three primary probe paths can emit. -/
def ProbeEmitted (i : Interaction) : Prop :=
  (∃ el env, simulate_hover_interaction el env = some i) ∨
  (∃ el env, simulate_popup_interaction el env = some i) ∨
  (∃ p u, detect_initial_popup p u = some i)

/-- Interactions any engine path (primary probes or the two opt-in advanced
fallbacks) can emit. -/
def EngineEmitted (i : Interaction) : Prop :=
  ProbeEmitted i ∨
  (∃ en cands, i ∈ find_advanced_hover_interactions en cands) ∨
  (∃ en cands, i ∈ find_advanced_popup_interactions en cands)

/-- A concrete popup-trigger candidate element. -/
def egTrigger : ElementInfo :=
  { tag := "a"
  , text := "Learn More"
  , role := "link"
  , xpath := "/html/body/a[1]"
  , attributes := [("href", "https://other.example/")]
  , location := { x := some 10, y := some 20, width := some 120, height := some 30 } }

/-- A concrete small popup (two buttons). -/
def egPopupInfo : PopupInfo :=
  { title := "Confirm"
  , content := "You are leaving this site"
  , buttons :=
      [ { text := "Cancel", className := "btn", href := "" }
      , { text := "Continue", className := "btn", href := "" } ]
  , selector := "dialog" }

/-- A popup probe environment: overlay detected, URL unchanged. -/
def egPopupEnvSame : PopupEnv :=
  { urlBefore := .ok "https://site.example/page"
  , scrollRes := .ok ()
  , clickRes := .ok ()
  , popupScript := .ok (some egPopupInfo)
  , urlAfter := .ok "https://site.example/page" }

/-- A popup probe environment: overlay detected but the URL changed. -/
def egPopupEnvNav : PopupEnv :=
  { urlBefore := .ok "https://site.example/page"
  , scrollRes := .ok ()
  , clickRes := .ok ()
  , popupScript := .ok (some egPopupInfo)
  , urlAfter := .ok "https://other.example/landing" }

/-- A popup with fourteen buttons, as produced by a mega-menu rendered inside a
dialog-role container. -/
def egBigPopupInfo : PopupInfo :=
  { title := "Menu"
  , content := "navigation"
  , buttons :=
      (List.range 14).map fun n =>
        { text := "item" ++ toString n, className := "nav", href := "" }
  , selector := ".modal" }

/-- A concrete hover-trigger candidate: a nav item labelled Shop at the top of
the page. -/
def egHoverTrigger : ElementInfo :=
  { tag := "a"
  , text := "Shop"
  , role := "menuitem"
  , xpath := "/html/body/nav/a[1]"
  , attributes := [("href", "https://site.example/shop")]
  , location := { x := some 40, y := some 12, width := some 60, height := some 24 } }

/-- A concrete after-hover snapshot with one newly visible anchor just below the
trigger. -/
def egVisibleAfter : List VisibleElement :=
  [ { tag := "a", text := "New Arrivals", id := "", className := "nav-link"
    , href := "https://site.example/new", role := ""
    , x := 40, y := 60, width := 100, height := 20 } ]

/-- A hover probe environment in which the menu state does not change and the
fallback diff finds one new link. -/
def egFallbackEnv : HoverEnv :=
  { urlBefore := .ok "https://site.example/"
  , visibleBefore := .ok []
  , menuStateBefore := .ok (some { count := 0, signature := "" })
  , scrollRes := .ok ()
  , hoverRes := .ok ()
  , menuStateAfter := .ok (some { count := 0, signature := "" })
  , menuStructScript := .ok none
  , visibleAfter := .ok egVisibleAfter }

/-- Claim-side candidate predicate for the hover fallback tier: an
after-snapshot entry with non-empty stripped href and text, whose stripped
pair was not visible before, not above the viewport top, and at most 500
pixels below the trigger's y-coordinate. -/
def fallbackCandidate (bkeys : List (String × String)) (triggerY : Int)
    (el : VisibleElement) : Bool :=
  (strTrim el.href) ≠ "" && (strTrim el.text) ≠ "" &&
    !bkeys.contains ((strTrim el.href), (strTrim el.text)) &&
    0 ≤ el.y && el.y ≤ triggerY + 500

/-- First-seen deduplication by `target_url`, written as a recursive
specification: keep the head, drop every later link with the same target. -/
def dedupByTarget : List ClickableLink → List ClickableLink
  | [] => []
  | l :: rest => l :: dedupByTarget (rest.filter fun x => x.target_url ≠ l.target_url)
termination_by l => l.length
decreasing_by
  simp only [List.length_cons]
  exact Nat.lt_succ_of_le (List.length_filter_le _ _)

/-- The seen-set dedup loop shared by `_extract_new_nav_links`, factored over an
already-filtered candidate list. -/
def dedupSeenAux : List ClickableLink → List String → List ClickableLink
  | [], _ => []
  | l :: rest, seen =>
    if seen.contains l.target_url then dedupSeenAux rest seen
    else l :: dedupSeenAux rest (l.target_url :: seen)

/-- The visibility-and-caption invariant of the spec's P1: positive width and
height and text bounded by `cap`. -/
def visibleCapped (cap : Nat) (e : ElementInfo) : Prop :=
  0 < e.location.width.getD 0 ∧ 0 < e.location.height.getD 0 ∧ e.text.length ≤ cap

/-- A visible menu-role container revealed by a hover that contains no anchor at
all (for example a menu made of buttons). -/
def egMenuNoLinks : MenuContainer :=
  { id := "menu1"
  , className := "account-menu"
  , innerText := "Settings Profile Sign out"
  , display := "block"
  , visibility := "visible"
  , opacity := "1"
  , width := 200
  , height := 150
  , matchesRoleMenu := true
  , matchesDropdownMenuClass := false
  , matchesSubmenuClass := false
  , matchesUlSub := false
  , matchesDropdownStyleBlock := false
  , anchors := [] }

/-- The page before the hover: no visible menu container. -/
def egPageBefore : List MenuContainer := []

/-- The page after the hover: one visible menu container without links. -/
def egPageAfter : List MenuContainer := [egMenuNoLinks]

/-- A hover environment grounded in `egPageBefore` and `egPageAfter`: the menu
count rises from 0 to 1 (primary detection fires) but the structure
extraction finds no menu with links. -/
def egC2Env : HoverEnv :=
  { urlBefore := .ok "https://site.example/"
  , visibleBefore := .ok []
  , menuStateBefore := .ok (some (getMenuStateScript egPageBefore))
  , scrollRes := .ok ()
  , hoverRes := .ok ()
  , menuStateAfter := .ok (some (getMenuStateScript egPageAfter))
  , menuStructScript := .ok (extract_revealed_menu_structure egPageAfter)
  , visibleAfter := .ok [] }

/-- A hover environment in which the primary tier fires and the extraction finds
a menu with one link. -/
def egPrimaryEnv : HoverEnv :=
  { urlBefore := .ok "https://site.example/"
  , visibleBefore := .ok []
  , menuStateBefore := .ok (some { count := 0, signature := "" })
  , scrollRes := .ok ()
  , hoverRes := .ok ()
  , menuStateAfter := .ok (some { count := 1, signature := "menu" })
  , menuStructScript := .ok (some
      { menu_type := "dropdown"
      , sections := []
      , all_links := ["New Arrivals"]
      , links := [{ text := "New Arrivals", href := "https://site.example/new" }] })
  , visibleAfter := .ok [] }

/-- A concrete raw nav element for the scanner witnesses. -/
def egRawNav : RawDomElement :=
  { tagName := "A"
  , textContent := " Shop "
  , id := ""
  , className := "nav-item"
  , roleAttr := ""
  , ariaLabel := ""
  , ariaHaspopup := "true"
  , ariaExpanded := "false"
  , href := "https://site.example/shop"
  , hostname := "site.example"
  , urlValid := true
  , rect := { x := 40, y := 12, width := 60, height := 24 }
  , display := "block"
  , visibility := "visible"
  , xpath := "/html/body/nav/a[1]" }

/-- Concrete scan inputs: the aria and strict-nav strategies both report the
same Shop trigger. -/
def egScanInputs : HoverScanInputs :=
  { aria := .ok [egRawNav]
  , navStrict := .ok [egRawNav]
  , navLoose := .ok []
  , css := .ok [] }

/-- The `ElementInfo` the aria strategy builds from `egRawNav`. -/
def egShopElement : ElementInfo :=
  { tag := "a"
  , text := "Shop"
  , role := "button"
  , xpath := "/html/body/nav/a[1]"
  , attributes :=
      [("id", ""), ("class", "nav-item"), ("aria-label", ""),
       ("aria-haspopup", "true"), ("aria-expanded", "false")]
  , location := { x := some 40, y := some 12, width := some 60, height := some 24 } }

/-- A poisoned hover environment: the locator is stale, the hover times out, and
the remaining scripts fail. -/
def egBadHoverEnv : HoverEnv :=
  { urlBefore := .ok "https://site.example/"
  , visibleBefore := .ok []
  , menuStateBefore := .ok (some { count := 0, signature := "" })
  , scrollRes := .ok ()
  , hoverRes := .error "ActionTimeoutError: element is not attached to the DOM"
  , menuStateAfter := .ok (some { count := 0, signature := "" })
  , menuStructScript := .error "EvaluationError"
  , visibleAfter := .error "EvaluationError" }

/-- A poisoned popup environment: the click times out. -/
def egBadPopupEnv : PopupEnv :=
  { urlBefore := .ok "https://site.example/page"
  , scrollRes := .ok ()
  , clickRes := .error "ActionTimeoutError"
  , popupScript := .ok none
  , urlAfter := .ok "https://site.example/page" }

/-- Five hover candidates, the middle one poisoned. -/
def egFiveHoverCands : List (ElementInfo × HoverEnv) :=
  [ (egHoverTrigger, egFallbackEnv)
  , (egHoverTrigger, egFallbackEnv)
  , (egHoverTrigger, egBadHoverEnv)
  , (egHoverTrigger, egFallbackEnv)
  , (egHoverTrigger, egFallbackEnv) ]

/-- Three popup candidates, the middle one poisoned. -/
def egThreePopupCands : List (ElementInfo × PopupEnv) :=
  [ (egTrigger, egPopupEnvSame)
  , (egTrigger, egBadPopupEnv)
  , (egTrigger, egPopupEnvSame) ]

theorem simulate_popup_some_inv (el : ElementInfo) (env : PopupEnv) (i : Interaction)
    (h : simulate_popup_interaction el env = some i) :
    ∃ u p, env.urlBefore = .ok u ∧ env.scrollRes = .ok () ∧ env.clickRes = .ok () ∧
      env.urlAfter = .ok u ∧
      detect_popup env.popupScript = some p ∧ i = clickPopupInteraction el u p := by
  unfold simulate_popup_interaction at h
  rcases hu : env.urlBefore with e | u <;> rw [hu] at h
  · exact absurd h (by simp)
  rcases hs : env.scrollRes with e | ⟨⟩ <;> rw [hs] at h
  · exact absurd h (by simp)
  rcases hc : env.clickRes with e | ⟨⟩ <;> rw [hc] at h
  · exact absurd h (by simp)
  rcases ha : env.urlAfter with e | u' <;> rw [ha] at h
  · exact absurd h (by simp)
  rcases hp : detect_popup env.popupScript with _ | p <;> rw [hp] at h
  · exact absurd h (by simp)
  by_cases he : u' = u
  · subst he
    simp at h
    exact ⟨u', p, rfl, rfl, rfl, rfl, rfl, h.symm⟩
  · simp [he] at h

theorem simulate_hover_some_inv (el : ElementInfo) (env : HoverEnv) (i : Interaction)
    (h : simulate_hover_interaction el env = some i) :
    ∃ u vb, env.urlBefore = .ok u ∧ env.visibleBefore = .ok vb ∧
      env.scrollRes = .ok () ∧ env.hoverRes = .ok () ∧
      ((∃ msr, env.menuStructScript = .ok msr ∧
          dropdownDetected (get_menu_state env.menuStateBefore)
            (get_menu_state env.menuStateAfter) = true ∧
          i = primaryInteraction el u msr) ∨
       (∃ va, env.visibleAfter = .ok va ∧
          dropdownDetected (get_menu_state env.menuStateBefore)
            (get_menu_state env.menuStateAfter) = false ∧
          extract_new_nav_links vb va el ≠ [] ∧
          i = fallbackInteraction el u (extract_new_nav_links vb va el))) := by
  unfold simulate_hover_interaction at h
  rcases hu : env.urlBefore with e | u <;> rw [hu] at h
  · exact absurd h (by simp)
  rcases hv : env.visibleBefore with e | vb <;> rw [hv] at h
  · exact absurd h (by simp)
  rcases hs : env.scrollRes with e | ⟨⟩ <;> rw [hs] at h
  · exact absurd h (by simp)
  rcases hh : env.hoverRes with e | ⟨⟩ <;> rw [hh] at h
  · exact absurd h (by simp)
  cases hd : dropdownDetected (get_menu_state env.menuStateBefore)
      (get_menu_state env.menuStateAfter) with
  | true =>
    rcases hm : env.menuStructScript with e | msr <;> rw [hm] at h
    · simp [hd] at h
    · simp [hd] at h
      exact ⟨u, vb, rfl, rfl, rfl, rfl, Or.inl ⟨msr, rfl, rfl, h.symm⟩⟩
  | false =>
    rcases ha : env.visibleAfter with e | va <;> rw [ha] at h
    · simp [hd] at h
    · by_cases hf : extract_new_nav_links vb va el = []
      · simp [hd, hf] at h
      · simp [hd, hf] at h
        exact ⟨u, vb, rfl, rfl, rfl, rfl, Or.inr ⟨va, rfl, rfl, hf, h.symm⟩⟩

/-- C1: an `Interaction` is emitted by the click probe with `popup_appeared =
true` exactly when an overlay is detected after the click and the URL did
not change; a detected overlay with a changed URL yields no interaction from
this path; and no emitted record has a set `url_after` that differs from
`url_before` while `popup_appeared` holds. -/
theorem popup_click_classification (el : ElementInfo) (env : PopupEnv)
    (u u' : String) (hb : env.urlBefore = .ok u) (hs : env.scrollRes = .ok ())
    (hc : env.clickRes = .ok ()) (ha : env.urlAfter = .ok u') :
    ((∃ i, simulate_popup_interaction el env = some i ∧ i.popup_appeared = true) ↔
      ((∃ p, detect_popup env.popupScript = some p) ∧ u' = u)) ∧
    ((∃ p, detect_popup env.popupScript = some p) → u' ≠ u →
      simulate_popup_interaction el env = none) ∧
    (∀ i, simulate_popup_interaction el env = some i →
      ∀ ua, i.url_after = some ua → ua ≠ i.url_before → i.popup_appeared = false) := by
  refine ⟨⟨?_, ?_⟩, ?_, ?_⟩
  · rintro ⟨i, hi, -⟩
    obtain ⟨v, p, hb', -, -, ha', hp, -⟩ := simulate_popup_some_inv el env i hi
    rw [hb] at hb'
    rw [ha] at ha'
    cases hb'
    cases ha'
    exact ⟨⟨p, hp⟩, rfl⟩
  · rintro ⟨⟨p, hp⟩, he⟩
    refine ⟨clickPopupInteraction el u p, ?_, rfl⟩
    unfold simulate_popup_interaction
    rw [hb, hs, hc, ha, hp]
    simp [he]
  · rintro ⟨p, hp⟩ hne
    unfold simulate_popup_interaction
    rw [hb, hs, hc, ha, hp]
    simp [hne]
  · intro i hi ua hua hne
    obtain ⟨v, p, -, -, -, -, -, hip⟩ := simulate_popup_some_inv el env i hi
    subst hip
    simp [clickPopupInteraction] at hua

/-- Witness for `popup_click_classification`: on a concrete click with an
overlay and an unchanged URL a popup interaction is emitted; on the same
click with a changed URL nothing is emitted. -/
theorem popup_click_classification_witness :
    (∃ i, simulate_popup_interaction egTrigger egPopupEnvSame = some i ∧
        i.popup_appeared = true) ∧
    simulate_popup_interaction egTrigger egPopupEnvNav = none :=
  ⟨(popup_click_classification egTrigger egPopupEnvSame
      "https://site.example/page" "https://site.example/page" rfl rfl rfl rfl).1.mpr
      ⟨⟨egPopupInfo, rfl⟩, rfl⟩,
   (popup_click_classification egTrigger egPopupEnvNav
      "https://site.example/page" "https://other.example/landing" rfl rfl rfl rfl).2.1
      ⟨egPopupInfo, rfl⟩ (by decide)⟩

/-- C6: `detect_initial_popup` discards a probe result with ten or more buttons;
with fewer than ten it emits a `load` interaction with `popup_appeared =
true` carrying that popup info. -/
theorem load_popup_guard (p : PopupInfo) (url : String) :
    (10 ≤ p.buttons.length → detect_initial_popup (some p) url = none) ∧
    (p.buttons.length < 10 →
      ∃ i, detect_initial_popup (some p) url = some i ∧ i.action_type = "load" ∧
        i.popup_appeared = true ∧ i.popup_info = some p) := by
  constructor
  · intro h
    simp [detect_initial_popup, h]
  · intro h
    have hn : ¬ 10 ≤ p.buttons.length := Nat.not_le.mpr h
    exact ⟨loadInteraction p url, by simp [detect_initial_popup, hn], rfl, rfl, rfl⟩

/-- Witness for `load_popup_guard`: a fourteen-button candidate is dropped; a
two-button candidate yields a load-popup interaction. -/
theorem load_popup_guard_witness :
    detect_initial_popup (some egBigPopupInfo) "https://site.example/" = none ∧
    ∃ i, detect_initial_popup (some egPopupInfo) "https://site.example/" = some i ∧
      i.action_type = "load" ∧ i.popup_appeared = true ∧ i.popup_info = some egPopupInfo :=
  ⟨(load_popup_guard egBigPopupInfo "https://site.example/").1 (by decide),
   (load_popup_guard egPopupInfo "https://site.example/").2 (by decide)⟩

/-- C3: the primary tier confirms a dropdown exactly when the visible-menu count
increased or stayed at least 1 with a changed signature; when it does not,
the probe's outcome is exactly that of the fallback diff tier. -/
theorem hover_primary_detection_rule (b a : MenuState) (el : ElementInfo)
    (env : HoverEnv) (u : String) (vb : List VisibleElement)
    (hu : env.urlBefore = .ok u) (hv : env.visibleBefore = .ok vb)
    (hs : env.scrollRes = .ok ()) (hh : env.hoverRes = .ok ()) :
    (dropdownDetected b a = true ↔
      (b.count < a.count ∨ (1 ≤ a.count ∧ a.signature ≠ b.signature))) ∧
    (dropdownDetected (get_menu_state env.menuStateBefore)
        (get_menu_state env.menuStateAfter) = false →
      ∀ va, env.visibleAfter = .ok va →
        simulate_hover_interaction el env =
          (if extract_new_nav_links vb va el ≠ [] then
            some (fallbackInteraction el u (extract_new_nav_links vb va el))
          else none)) := by
  constructor
  · unfold dropdownDetected
    by_cases h1 : b.count < a.count
    · simp [h1]
    · by_cases h2 : 1 ≤ a.count
      · by_cases h3 : a.signature = b.signature <;> simp [h1, h2, h3]
      · simp [h1, h2]
  · intro hd va hva
    unfold simulate_hover_interaction
    rw [hu, hv, hs, hh, hva]
    simp [hd]

/-- Witness for `hover_primary_detection_rule` at concrete menu states and a
concrete fallback environment. -/
theorem hover_primary_detection_rule_witness :
    (dropdownDetected { count := 0, signature := "" } { count := 1, signature := "m" } = true ↔
      ((0 : Nat) < 1 ∨ (1 ≤ 1 ∧ "m" ≠ ""))) ∧
    simulate_hover_interaction egHoverTrigger egFallbackEnv =
      (if extract_new_nav_links [] egVisibleAfter egHoverTrigger ≠ [] then
        some (fallbackInteraction egHoverTrigger "https://site.example/"
          (extract_new_nav_links [] egVisibleAfter egHoverTrigger))
      else none) :=
  ⟨(hover_primary_detection_rule { count := 0, signature := "" }
      { count := 1, signature := "m" } egHoverTrigger egFallbackEnv
      "https://site.example/" [] rfl rfl rfl rfl).1,
   (hover_primary_detection_rule { count := 0, signature := "" }
      { count := 1, signature := "m" } egHoverTrigger egFallbackEnv
      "https://site.example/" [] rfl rfl rfl rfl).2 (by decide) egVisibleAfter rfl⟩

theorem extractNewNavAux_eq_dedupSeen (bkeys : List (String × String)) (ty : Int)
    (after : List VisibleElement) :
    ∀ seen, extractNewNavAux bkeys ty after seen =
      dedupSeenAux ((after.filter (fallbackCandidate bkeys ty)).map
        fun e => { text := (strTrim e.text), target_url := (strTrim e.href) }) seen := by
  induction after with
  | nil => intro seen; rfl
  | cons el rest ih =>
    intro seen
    by_cases h1 : (strTrim el.href) = ""
    · have hc : fallbackCandidate bkeys ty el = false := by
        simp [fallbackCandidate, h1]
      simp [extractNewNavAux, h1, hc, ih]
    · by_cases h2 : (strTrim el.text) = ""
      · have hc : fallbackCandidate bkeys ty el = false := by
          simp [fallbackCandidate, h2]
        simp [extractNewNavAux, h1, h2, hc, ih]
      · by_cases h3 : bkeys.contains ((strTrim el.href), (strTrim el.text))
        · have h3m : ((strTrim el.href), (strTrim el.text)) ∈ bkeys := by simpa using h3
          have hc : fallbackCandidate bkeys ty el = false := by
            simp [fallbackCandidate, h3m]
          simp [extractNewNavAux, h1, h2, h3m, hc, ih]
        · by_cases h4 : el.y < 0
          · have hc : fallbackCandidate bkeys ty el = false := by
              simp [fallbackCandidate, Int.not_le.mpr h4]
            have h3m : ((strTrim el.href), (strTrim el.text)) ∉ bkeys := by simpa using h3
            simp [extractNewNavAux, h1, h2, h3m, h4, hc, ih]
          · by_cases h5 : ty + 500 < el.y
            · have hc : fallbackCandidate bkeys ty el = false := by
                simp [fallbackCandidate, Int.not_le.mpr h5]
              have h3m : ((strTrim el.href), (strTrim el.text)) ∉ bkeys := by simpa using h3
              simp [extractNewNavAux, h1, h2, h3m, h4, h5, hc, ih]
            · have hc : fallbackCandidate bkeys ty el = true := by
                simp [fallbackCandidate, h1, h2, Int.not_lt.mp h4, Int.not_lt.mp h5]
                simpa using h3
              have h3m : ((strTrim el.href), (strTrim el.text)) ∉ bkeys := by simpa using h3
              simp [extractNewNavAux, dedupSeenAux, h1, h2, h3m, h4, h5, hc, ih]

theorem dedupSeenAux_eq_dedupByTarget (xs : List ClickableLink) :
    ∀ seen, dedupSeenAux xs seen =
      dedupByTarget (xs.filter fun x => !seen.contains x.target_url) := by
  induction xs with
  | nil => intro seen; simp [dedupSeenAux, dedupByTarget]
  | cons l rest ih =>
    intro seen
    by_cases hc : seen.contains l.target_url
    · have hm : l.target_url ∈ seen := by simpa using hc
      simp [dedupSeenAux, hm, ih]
    · rw [dedupSeenAux, if_neg (by simpa using hc), ih (l.target_url :: seen),
        List.filter_cons_of_pos (by simpa using hc), dedupByTarget]
      congr 1
      congr 1
      rw [List.filter_filter]
      apply List.filter_congr
      intro x _
      by_cases hx : x.target_url = l.target_url <;> simp [hx]

/-- C4: the fallback tier's output is exactly the after-snapshot entries with
non-empty href and text, not present before, vertically within 500 pixels
below the trigger and not above the viewport top, deduplicated by href in
first-seen order; and when the primary tier confirmed a dropdown, the probe
emits the primary interaction, never a fallback one. -/
theorem hover_fallback_links (before after : List VisibleElement)
    (trig el : ElementInfo) (env : HoverEnv)
    (hdet : dropdownDetected (get_menu_state env.menuStateBefore)
        (get_menu_state env.menuStateAfter) = true) :
    extract_new_nav_links before after trig =
      dedupByTarget ((after.filter (fallbackCandidate (beforeKeys before)
          (trig.location.y.getD 0))).map
        fun e => { text := (strTrim e.text), target_url := (strTrim e.href) }) ∧
    (∀ i, simulate_hover_interaction el env = some i →
      i.interaction_method = "hover-menu") := by
  constructor
  · rw [extract_new_nav_links, extractNewNavAux_eq_dedupSeen,
      dedupSeenAux_eq_dedupByTarget]
    congr 1
    simp
  · intro i hi
    obtain ⟨u, vb, -, -, -, -, hcase⟩ := simulate_hover_some_inv el env i hi
    rcases hcase with ⟨msr, -, -, hip⟩ | ⟨va, -, hd0, -, -⟩
    · subst hip; rfl
    · rw [hdet] at hd0; cases hd0

/-- Witness for `hover_fallback_links` at a concrete snapshot pair and a
concrete environment whose primary tier fires. -/
theorem hover_fallback_links_witness :
    extract_new_nav_links [] egVisibleAfter egHoverTrigger =
      dedupByTarget ((egVisibleAfter.filter (fallbackCandidate (beforeKeys [])
          (egHoverTrigger.location.y.getD 0))).map
        fun e => { text := (strTrim e.text), target_url := (strTrim e.href) }) ∧
    (∀ i, simulate_hover_interaction egHoverTrigger egPrimaryEnv = some i →
      i.interaction_method = "hover-menu") :=
  hover_fallback_links [] egVisibleAfter egHoverTrigger egHoverTrigger egPrimaryEnv
    (by decide)

/-- Counterexample to C2 as stated.  On the concrete page `egPageAfter`,
hovering reveals a visible menu-role container with no anchors: the
menu-state diff confirms a dropdown (count 0 to 1) but the extraction
returns nothing, so the probe emits an `Interaction` with `popup_appeared =
false`, no `menu_structure` and no `visual_changes.clickable_links`. -/
theorem discovery_invariant_cex :
    ∃ i, simulate_hover_interaction egHoverTrigger egC2Env = some i ∧
      i.popup_appeared = false ∧ i.menu_structure = none ∧ i.visual_changes = none := by
  refine ⟨primaryInteraction egHoverTrigger "https://site.example/" none, ?_, rfl, rfl, rfl⟩
  decide

/-- C2 amended: every `Interaction` emitted by the click or load probe has
`popup_appeared = true`, and every one emitted by the hover probe has a
non-null `menu_structure` or non-empty `visual_changes.clickable_links`,
except that the hover primary tier may emit an `Interaction` with none of
the three when the menu-structure extraction found no menu with links. -/
theorem discovery_invariant_amended (i : Interaction) (h : ProbeEmitted i) :
    i.popup_appeared = true ∨ i.menu_structure.isSome = true ∨
      (∃ vc, i.visual_changes = some vc ∧ vc.clickable_links ≠ []) ∨
      (i.interaction_method = "hover-menu" ∧ i.menu_structure = none ∧
        i.visual_changes = none) := by
  rcases h with ⟨el, env, hh⟩ | ⟨el, env, hp⟩ | ⟨p, u, hl⟩
  · obtain ⟨u, vb, -, -, -, -, hcase⟩ := simulate_hover_some_inv el env i hh
    rcases hcase with ⟨msr, -, -, hip⟩ | ⟨va, -, -, hne, hip⟩
    · subst hip
      cases msr with
      | none => exact Or.inr (Or.inr (Or.inr ⟨rfl, rfl, rfl⟩))
      | some ms => exact Or.inr (Or.inl rfl)
    · subst hip
      exact Or.inr (Or.inr (Or.inl ⟨_, rfl, hne⟩))
  · obtain ⟨u, p, -, -, -, -, -, hip⟩ := simulate_popup_some_inv el env i hp
    subst hip
    exact Or.inl rfl
  · rcases p with _ | p
    · cases hl
    · by_cases hb : 10 ≤ p.buttons.length
      · rw [detect_initial_popup, if_pos hb] at hl
        cases hl
      · rw [detect_initial_popup, if_neg hb] at hl
        injection hl with hl
        subst hl
        exact Or.inl rfl

/-- Witness for `discovery_invariant_amended` at a concrete load-popup emission. -/
theorem discovery_invariant_amended_witness :
    (loadInteraction egPopupInfo "https://site.example/").popup_appeared = true ∨
    (loadInteraction egPopupInfo "https://site.example/").menu_structure.isSome = true ∨
    (∃ vc, (loadInteraction egPopupInfo "https://site.example/").visual_changes = some vc ∧
      vc.clickable_links ≠ []) ∨
    ((loadInteraction egPopupInfo "https://site.example/").interaction_method = "hover-menu" ∧
      (loadInteraction egPopupInfo "https://site.example/").menu_structure = none ∧
      (loadInteraction egPopupInfo "https://site.example/").visual_changes = none) :=
  discovery_invariant_amended (loadInteraction egPopupInfo "https://site.example/")
    (Or.inr (Or.inr ⟨some egPopupInfo, "https://site.example/", by decide⟩))

theorem strTake_length_le (s : String) (n : Nat) : (strTake s n).length ≤ n := by
  show (s.data.take n).length ≤ n
  simp [List.length_take]

theorem ariaScanAux_visible (els : List RawDomElement) :
    ∀ seen, ∀ e ∈ ariaScanAux els seen, visibleCapped 50 e := by
  induction els with
  | nil => intro seen e he; cases he
  | cons el rest ih =>
    intro seen e he
    rw [ariaScanAux] at he
    split at he
    · rename_i hcond
      simp only [Bool.and_eq_true, decide_eq_true_eq] at hcond
      obtain ⟨⟨⟨⟨h1, h2⟩, h3⟩, h4⟩, -⟩ := hcond
      rcases List.mem_cons.mp he with he | he
      · subst he
        exact ⟨by simpa [mkLocation] using h1, by simpa [mkLocation] using h2,
          le_of_lt h4⟩
      · exact ih _ e he
    · exact ih _ e he

theorem navStrictScanAux_visible (els : List RawDomElement) :
    ∀ seen, ∀ e ∈ navStrictScanAux els seen, visibleCapped 50 e := by
  induction els with
  | nil => intro seen e he; cases he
  | cons el rest ih =>
    intro seen e he
    rw [navStrictScanAux] at he
    split at he
    · rename_i hcond
      simp only [Bool.and_eq_true, decide_eq_true_eq] at hcond
      obtain ⟨⟨⟨⟨h1, h2⟩, h3⟩, h4⟩, -⟩ := hcond
      rcases List.mem_cons.mp he with he | he
      · subst he
        exact ⟨by simpa [mkLocation] using h1, by simpa [mkLocation] using h2,
          le_of_lt h4⟩
      · exact ih _ e he
    · exact ih _ e he

theorem cssScanAux_visible (els : List RawDomElement) :
    ∀ seen, ∀ e ∈ cssScanAux els seen, visibleCapped 50 e := by
  induction els with
  | nil => intro seen e he; cases he
  | cons el rest ih =>
    intro seen e he
    rw [cssScanAux] at he
    split at he
    · rename_i hcond
      simp only [Bool.and_eq_true, decide_eq_true_eq] at hcond
      obtain ⟨⟨⟨⟨h1, h2⟩, h3⟩, h4⟩, -⟩ := hcond
      rcases List.mem_cons.mp he with he | he
      · subst he
        exact ⟨by simpa [mkLocation] using h1, by simpa [mkLocation] using h2,
          le_of_lt h4⟩
      · exact ih _ e he
    · exact ih _ e he

theorem navLooseScanAux_visible (els : List RawDomElement) :
    ∀ seen, ∀ e ∈ navLooseScanAux els seen, visibleCapped 50 e := by
  induction els with
  | nil => intro seen e he; cases he
  | cons el rest ih =>
    intro seen e he
    rw [navLooseScanAux] at he
    split at he
    · exact ih _ e he
    split at he
    · exact ih _ e he
    split at he
    · exact ih _ e he
    split at he
    · exact ih _ e he
    split at he
    · exact ih _ e he
    rename_i hsize hsty hy htext hseen
    rcases List.mem_cons.mp he with he | he
    · subst he
      simp only [Bool.or_eq_true, decide_eq_true_eq, not_or, Int.not_le] at hsize
      simp only [Bool.or_eq_true, decide_eq_true_eq, not_or, Nat.not_lt] at htext
      exact ⟨by simpa [mkLocation] using hsize.1, by simpa [mkLocation] using hsize.2,
        htext.2⟩
    · exact ih _ e he

theorem popupClassicScan_visible (els : List RawDomElement) :
    ∀ e ∈ popupClassicScan els, visibleCapped 100 e := by
  induction els with
  | nil => intro e he; cases he
  | cons el rest ih =>
    intro e he
    rw [popupClassicScan] at he
    split at he
    · rename_i hcond
      simp only [Bool.and_eq_true, decide_eq_true_eq] at hcond
      obtain ⟨⟨h1, h2⟩, -⟩ := hcond
      rcases List.mem_cons.mp he with he | he
      · subst he
        exact ⟨by simpa [mkLocation] using h1, by simpa [mkLocation] using h2,
          strTake_length_le _ _⟩
      · exact ih e he
    · exact ih e he

theorem externalScanAux_visible (host : String) (innerH : Int)
    (els : List RawDomElement) :
    ∀ seen, ∀ e ∈ externalScanAux host innerH els seen, visibleCapped 100 e := by
  induction els with
  | nil => intro seen e he; cases he
  | cons el rest ih =>
    intro seen e he
    rw [externalScanAux] at he
    split at he
    · exact ih _ e he
    split at he
    · exact ih _ e he
    split at he
    · exact ih _ e he
    split at he
    · exact ih _ e he
    split at he
    · exact ih _ e he
    split at he
    · exact ih _ e he
    split at he
    · exact ih _ e he
    rename_i hsize hsty htext hurl hhost hy hseen
    rcases List.mem_cons.mp he with he | he
    · subst he
      simp only [Bool.or_eq_true, decide_eq_true_eq, not_or, Int.not_le] at hsize
      exact ⟨by simpa [mkLocation] using hsize.1, by simpa [mkLocation] using hsize.2,
        strTake_length_le _ _⟩
    · exact ih _ e he

theorem popupDedupAux_subset (xs : List ElementInfo) :
    ∀ seen, ∀ e ∈ popupDedupAux xs seen, e ∈ xs := by
  induction xs with
  | nil => intro seen e he; cases he
  | cons el rest ih =>
    intro seen e he
    rw [popupDedupAux] at he
    split at he
    · exact List.mem_cons_of_mem _ (ih _ e he)
    · rcases List.mem_cons.mp he with he | he
      · exact he ▸ List.mem_cons_self _ _
      · exact List.mem_cons_of_mem _ (ih _ e he)

/-- C5 amended: every `ElementInfo` returned by any scanner strategy has a
positive width and height and text within the strategy's hard-coded cap (50
characters for the four hover strategies, 100 for the two popup-trigger
strategies), and the hover and click probes emit the probed candidate
unchanged as `trigger_element`; the load-time probe's synthetic `body`
trigger, however, carries an empty location (see the counterexample). -/
theorem scanner_visibility_invariant
    (r1 r2 r3 r4 rc re : Except String (List RawDomElement))
    (host : String) (innerH : Int) :
    (∀ e ∈ find_aria_menu_triggers r1, visibleCapped 50 e) ∧
    (∀ e ∈ find_nav_menu_triggers r2, visibleCapped 50 e) ∧
    (∀ e ∈ find_nav_menu_triggers_loose r3, visibleCapped 50 e) ∧
    (∀ e ∈ find_css_dropdown_triggers r4, visibleCapped 50 e) ∧
    (∀ e ∈ detect_popup_triggers rc host innerH re, visibleCapped 100 e) ∧
    (∀ el env i, simulate_hover_interaction el env = some i →
      i.trigger_element = el) ∧
    (∀ el env i, simulate_popup_interaction el env = some i →
      i.trigger_element = el) := by
  refine ⟨?_, ?_, ?_, ?_, ?_, ?_, ?_⟩
  · intro e he
    cases r1 with
    | error _ => cases he
    | ok els => exact ariaScanAux_visible els [] e he
  · intro e he
    cases r2 with
    | error _ => cases he
    | ok els => exact navStrictScanAux_visible els [] e he
  · intro e he
    cases r3 with
    | error _ => cases he
    | ok els => exact navLooseScanAux_visible els [] e he
  · intro e he
    cases r4 with
    | error _ => cases he
    | ok els => exact cssScanAux_visible els [] e he
  · intro e he
    have hmem := popupDedupAux_subset _ [] e ((List.take_sublist _ _).subset he)
    rcases List.mem_append.mp hmem with hmem | hmem
    · cases rc with
      | error _ => cases hmem
      | ok els => exact popupClassicScan_visible els e hmem
    · cases re with
      | error _ => cases hmem
      | ok els => exact externalScanAux_visible _ innerH els [] e hmem
  · intro el env i hi
    obtain ⟨u, vb, -, -, -, -, hcase⟩ := simulate_hover_some_inv el env i hi
    rcases hcase with ⟨msr, -, -, hip⟩ | ⟨va, -, -, -, hip⟩ <;> subst hip <;> rfl
  · intro el env i hi
    obtain ⟨u, p, -, -, -, -, -, hip⟩ := simulate_popup_some_inv el env i hi
    subst hip
    rfl

/-- Counterexample to C5 as stated: the load-popup probe emits an `Interaction`
whose synthetic `body` trigger has an empty location dict, so its width
(read with the code's `.get(key, 0.0)` default) is 0, not positive. -/
theorem scanner_visibility_invariant_cex :
    ∃ i, detect_initial_popup (some egPopupInfo) "https://site.example/" = some i ∧
      ¬ (0 < i.trigger_element.location.width.getD 0) :=
  ⟨loadInteraction egPopupInfo "https://site.example/", by decide, by decide⟩

/-- Witness for `scanner_visibility_invariant`: the aria strategy's concrete
output element is visible and capped, and a concrete click-probe emission
carries its candidate as trigger. -/
theorem scanner_visibility_invariant_witness :
    visibleCapped 50 egShopElement ∧
    (clickPopupInteraction egTrigger "https://site.example/page" egPopupInfo).trigger_element =
      egTrigger :=
  ⟨(scanner_visibility_invariant (.ok [egRawNav]) (.ok []) (.ok []) (.ok [])
      (.ok []) (.ok []) "site.example" 1080).1 egShopElement (by decide),
   (scanner_visibility_invariant (.ok [egRawNav]) (.ok []) (.ok []) (.ok [])
      (.ok []) (.ok []) "site.example" 1080).2.2.2.2.2.2 egTrigger egPopupEnvSame
      (clickPopupInteraction egTrigger "https://site.example/page" egPopupInfo)
      (by decide)⟩

theorem deduplicateAux_mem_spec (xs : List ElementInfo) :
    ∀ seen e, e ∈ deduplicateAux seen xs →
      e.text ≠ "" ∧ e.text ∉ seen ∧
        xs.find? (fun x => x.text == e.text) = some e := by
  induction xs with
  | nil => intro seen e he; cases he
  | cons el rest ih =>
    intro seen e he
    rw [deduplicateAux] at he
    split at he
    · rename_i hcond
      simp only [Bool.and_eq_true, Bool.not_eq_true', decide_eq_true_eq,
        ne_eq] at hcond
      obtain ⟨hne, hnotseen⟩ := hcond
      rcases List.mem_cons.mp he with he | he
      · subst he
        refine ⟨hne, by simpa using hnotseen, ?_⟩
        rw [List.find?_cons_of_pos]
        simp
      · obtain ⟨h1, h2, h3⟩ := ih (el.text :: seen) e he
        have hne2 : el.text ≠ e.text := by
          intro hEq
          exact h2 (hEq ▸ List.mem_cons_self _ _)
        refine ⟨h1, fun hmem => h2 (List.mem_cons_of_mem _ hmem), ?_⟩
        rw [List.find?_cons_of_neg]
        · exact h3
        · simp [hne2]
    · rename_i hcond
      simp only [Bool.and_eq_true, Bool.not_eq_true', decide_eq_true_eq, ne_eq,
        not_and, not_not] at hcond
      obtain ⟨h1, h2, h3⟩ := ih seen e he
      have hne2 : el.text ≠ e.text := by
        intro hEq
        by_cases hz : el.text = ""
        · exact h1 (hEq ▸ hz)
        · have := hcond hz
          exact h2 (hEq ▸ (by simpa using this))
      refine ⟨h1, h2, ?_⟩
      rw [List.find?_cons_of_neg]
      · exact h3
      · simp [hne2]

theorem deduplicateAux_pairwise (xs : List ElementInfo) :
    ∀ seen, (deduplicateAux seen xs).Pairwise (fun a b => a.text ≠ b.text) := by
  induction xs with
  | nil => intro seen; exact List.Pairwise.nil
  | cons el rest ih =>
    intro seen
    rw [deduplicateAux]
    split
    · constructor
      · intro b hb
        have hb2 := (deduplicateAux_mem_spec rest (el.text :: seen) b hb).2.1
        intro hEq
        exact hb2 (hEq ▸ List.mem_cons_self _ _)
      · exact ih _
    · exact ih _

/-- C7: the hover-candidate list is the strategy union deduplicated by label
with first-seen wins (then truncated to the configured cap): retained
elements have pairwise distinct labels, and each retained element is the
first element of the concatenated strategy output bearing its label. -/
theorem hover_candidates_dedup (inp : HoverScanInputs) :
    find_hoverable_elements inp =
      (deduplicate_elements (hoverCandidatesRaw inp)).take MAX_HOVER_ELEMENTS ∧
    (find_hoverable_elements inp).Pairwise (fun a b => a.text ≠ b.text) ∧
    (∀ e ∈ find_hoverable_elements inp,
      (hoverCandidatesRaw inp).find? (fun x => x.text == e.text) = some e) := by
  refine ⟨rfl, ?_, ?_⟩
  · exact List.Pairwise.sublist (List.take_sublist _ _)
      (deduplicateAux_pairwise (hoverCandidatesRaw inp) [])
  · intro e he
    exact (deduplicateAux_mem_spec (hoverCandidatesRaw inp) [] e
      ((List.take_sublist _ _).subset he)).2.2

/-- Witness for `hover_candidates_dedup`: on a concrete scan in which two
strategies both report the Shop trigger, the retained element is the aria
strategy's (first-seen) one. -/
theorem hover_candidates_dedup_witness :
    egShopElement ∈ find_hoverable_elements egScanInputs ∧
    (hoverCandidatesRaw egScanInputs).find?
      (fun x => x.text == egShopElement.text) = some egShopElement :=
  ⟨by decide,
   (hover_candidates_dedup egScanInputs).2.2 egShopElement (by decide)⟩

theorem deduplicateAux_idem (xs : List ElementInfo) :
    ∀ seen, deduplicateAux seen (deduplicateAux seen xs) = deduplicateAux seen xs := by
  induction xs with
  | nil => intro seen; rfl
  | cons el rest ih =>
    intro seen
    rw [deduplicateAux]
    split
    · rename_i hcond
      rw [deduplicateAux, if_pos hcond, ih]
    · exact ih seen

/-- C9: the hover-candidate dedup step is idempotent (it is a pure function of
its input by construction, being a Lean function of the list alone). -/
theorem dedup_idempotent (xs : List ElementInfo) :
    deduplicate_elements (deduplicate_elements xs) = deduplicate_elements xs :=
  deduplicateAux_idem xs []

theorem hover_faulty_none (el : ElementInfo) (env : HoverEnv)
    (h : hoverEnvFaulty env = true) : simulate_hover_interaction el env = none := by
  cases hi : simulate_hover_interaction el env with
  | none => rfl
  | some i =>
    exfalso
    obtain ⟨u, vb, hu, hv, hs, hh, hcase⟩ := simulate_hover_some_inv el env i hi
    rw [hoverEnvFaulty, hu, hv, hs, hh] at h
    simp only [isErr, Bool.or_eq_true, Bool.and_eq_true] at h
    obtain ⟨hm, ha⟩ := by simpa using h
    rcases hcase with ⟨msr, hmv, -, -⟩ | ⟨va, hav, -, -, -⟩
    · rw [hmv] at hm
      simp [isErr] at hm
    · rw [hav] at ha
      simp [isErr] at ha

theorem popup_faulty_none (el : ElementInfo) (env : PopupEnv)
    (h : popupEnvFaulty env = true) : simulate_popup_interaction el env = none := by
  cases hi : simulate_popup_interaction el env with
  | none => rfl
  | some i =>
    exfalso
    obtain ⟨u, p, hu, hs, hc, ha, hp, -⟩ := simulate_popup_some_inv el env i hi
    rw [popupEnvFaulty, hu, hs, hc, ha] at h
    simp only [isErr, Bool.or_eq_true] at h
    have hps : isErr env.popupScript = true := by simpa using h
    rcases hq : env.popupScript with e | r
    · rw [hq] at hp
      simp [detect_popup] at hp
    · rw [hq] at hps
      simp [isErr] at hps

/-- C8: a faulty probe (stale locator, hover/click timeout, script failure on
the branch taken) returns `None` rather than raising, and the driver loops
of `generate_tests` simply skip it, returning the interactions of all other
candidates (stated for batches within the 5-hover / 3-popup caps). -/
theorem fault_isolation (el el' : ElementInfo) (envH : HoverEnv) (envP : PopupEnv)
    (hH : hoverEnvFaulty envH = true) (hP : popupEnvFaulty envP = true)
    (xs ys : List (ElementInfo × HoverEnv)) (ps qs : List (ElementInfo × PopupEnv))
    (hlen : xs.length + ys.length ≤ 4) (plen : ps.length + qs.length ≤ 2) :
    simulate_hover_interaction el envH = none ∧
    simulate_popup_interaction el' envP = none ∧
    hover_loop (xs ++ (el, envH) :: ys) = probeHoverBatch xs ++ probeHoverBatch ys ∧
    popup_loop (ps ++ (el', envP) :: qs) = probePopupBatch ps ++ probePopupBatch qs := by
  have h1 := hover_faulty_none el envH hH
  have h2 := popup_faulty_none el' envP hP
  refine ⟨h1, h2, ?_, ?_⟩
  · rw [hover_loop, List.take_of_length_le (by simp; omega)]
    rw [probeHoverBatch, List.filterMap_append]
    simp [probeHoverBatch, h1]
  · rw [popup_loop, List.take_of_length_le (by simp; omega)]
    rw [probePopupBatch, List.filterMap_append]
    simp [probePopupBatch, h2]

/-- Witness for `fault_isolation`: five hover candidates with the middle one
poisoned still yield the four other interactions; three popup candidates
with the middle one poisoned yield the other two. -/
theorem fault_isolation_witness :
    hoverEnvFaulty egBadHoverEnv = true ∧
    (hover_loop egFiveHoverCands).length = 4 ∧
    popupEnvFaulty egBadPopupEnv = true ∧
    (popup_loop egThreePopupCands).length = 2 := by
  have h := fault_isolation egHoverTrigger egTrigger egBadHoverEnv egBadPopupEnv
    (by decide) (by decide)
    [(egHoverTrigger, egFallbackEnv), (egHoverTrigger, egFallbackEnv)]
    [(egHoverTrigger, egFallbackEnv), (egHoverTrigger, egFallbackEnv)]
    [(egTrigger, egPopupEnvSame)] [(egTrigger, egPopupEnvSame)]
    (by decide) (by decide)
  refine ⟨by decide, ?_, by decide, ?_⟩
  · have h3 : hover_loop egFiveHoverCands =
        probeHoverBatch [(egHoverTrigger, egFallbackEnv), (egHoverTrigger, egFallbackEnv)] ++
        probeHoverBatch [(egHoverTrigger, egFallbackEnv), (egHoverTrigger, egFallbackEnv)] :=
      h.2.2.1
    rw [h3]
    decide
  · have h4 : popup_loop egThreePopupCands =
        probePopupBatch [(egTrigger, egPopupEnvSame)] ++
        probePopupBatch [(egTrigger, egPopupEnvSame)] :=
      h.2.2.2
    rw [h4]
    decide

theorem advanced_hover_candidate_some_inv (el : ElementInfo) (env : AdvHoverEnv)
    (i : Interaction) (h : advanced_hover_candidate el env = some i) :
    ∃ u links, i = advancedHoverInteraction el u links := by
  unfold advanced_hover_candidate at h
  rcases hu : env.urlBefore with e | u <;> rw [hu] at h
  · exact absurd h (by simp)
  rcases hr : env.script with e | r <;> rw [hr] at h
  · exact absurd h (by simp)
  rcases r with _ | result
  · exact absurd h (by simp)
  by_cases hae : result.after.isEmpty
  · simp [hae] at h
  by_cases hnl : (advNewLinksAux (advBeforeKeys result.before) result.after []).isEmpty
  · simp [hae, hnl] at h
  · simp [hae, hnl] at h
    exact ⟨u, advNewLinksAux (advBeforeKeys result.before) result.after [], h.symm⟩

theorem engineEmitted_url_after_none (i : Interaction) (h : EngineEmitted i) :
    i.url_after = none := by
  rcases h with (⟨el, env, hh⟩ | ⟨el, env, hp⟩ | ⟨p, u, hl⟩) |
    ⟨en, cands, hm⟩ | ⟨en, cands, hm⟩
  · obtain ⟨u, vb, -, -, -, -, hcase⟩ := simulate_hover_some_inv el env i hh
    rcases hcase with ⟨msr, -, -, hip⟩ | ⟨va, -, -, -, hip⟩ <;> subst hip <;> rfl
  · obtain ⟨u, p, -, -, -, -, -, hip⟩ := simulate_popup_some_inv el env i hp
    subst hip
    rfl
  · rcases p with _ | p
    · cases hl
    · by_cases hb : 10 ≤ p.buttons.length
      · rw [detect_initial_popup, if_pos hb] at hl
        cases hl
      · rw [detect_initial_popup, if_neg hb] at hl
        injection hl with hl
        subst hl
        rfl
  · rw [find_advanced_hover_interactions] at hm
    split at hm
    · obtain ⟨c, -, hc⟩ := List.mem_filterMap.mp hm
      obtain ⟨u, links, hip⟩ := advanced_hover_candidate_some_inv c.1 c.2 i hc
      subst hip
      rfl
    · cases hm
  · rw [find_advanced_popup_interactions] at hm
    split at hm
    · obtain ⟨c, -, hc⟩ := List.mem_filterMap.mp hm
      rcases hs : simulate_popup_interaction c.1 c.2 with _ | j <;> rw [hs] at hc
      · cases hc
      · by_cases hpa : j.popup_appeared = true
        · simp only [hpa, if_true] at hc
          injection hc with hc
          subst hc
          obtain ⟨u, p, -, -, -, -, -, hip⟩ := simulate_popup_some_inv c.1 c.2 j hs
          subst hip
          rfl
        · simp [hpa] at hc
    · cases hm

/-- C10: every `Interaction` the engine constructs, on any path, has `url_after
= None`; hence the mapper's `url_changed` flag is `False` for every entry of
`to_dict_list` and the `url_changes` summary count is 0 for any collection
of engine-emitted interactions. -/
theorem engine_url_after_none (i : Interaction) (l : List Interaction)
    (h : EngineEmitted i) (hl : ∀ j ∈ l, EngineEmitted j) :
    i.url_after = none ∧ (interactionToDict i).url_changed = false ∧
    (∀ d ∈ to_dict_list l, d.url_changed = false) ∧
    summary_url_changes l = 0 := by
  have hnone := engineEmitted_url_after_none i h
  refine ⟨hnone, ?_, ?_, ?_⟩
  · simp [interactionToDict, hnone]
  · intro d hd
    obtain ⟨j, hj, hdj⟩ := List.mem_map.mp hd
    subst hdj
    simp [interactionToDict, engineEmitted_url_after_none j (hl j hj)]
  · rw [summary_url_changes]
    have hfil : l.filter urlAfterTruthy = [] := by
      rw [List.filter_eq_nil_iff]
      intro j hj
      simp [urlAfterTruthy, engineEmitted_url_after_none j (hl j hj)]
    rw [hfil]
    rfl

/-- Witness for `engine_url_after_none` at a concrete load-popup emission. -/
theorem engine_url_after_none_witness :
    (loadInteraction egPopupInfo "https://site.example/").url_after = none ∧
    (interactionToDict (loadInteraction egPopupInfo "https://site.example/")).url_changed =
      false ∧
    (∀ d ∈ to_dict_list [loadInteraction egPopupInfo "https://site.example/"],
      d.url_changed = false) ∧
    summary_url_changes [loadInteraction egPopupInfo "https://site.example/"] = 0 :=
  engine_url_after_none _ _
    (Or.inl (Or.inr (Or.inr ⟨some egPopupInfo, "https://site.example/", by decide⟩)))
    (by
      intro j hj
      rw [List.mem_singleton.mp hj]
      exact Or.inl (Or.inr (Or.inr ⟨some egPopupInfo, "https://site.example/", by decide⟩)))
